import Mathlib

/-!
Shallow embedding of `plotters-wxdragon` (`src/lib.rs`): an adapter that
implements the plotters `DrawingBackend` trait over a wxDragon device
context.  Device-context interaction is modelled as an explicit
device-context state plus a trace of emitted native calls.  Rust `f64`
values are modelled as exact rationals extended with NaN and the two
infinities, and the Rust numeric casts the source performs (`as u8`,
`as i32`, `as u32`) are given their saturating / wrapping semantics
explicitly.
-/

namespace PlottersWx

/-- Surrogate for a Rust `f64` value: NaN, an infinity, or a finite value
modelled as an exact rational (real-number semantics for the arithmetic the
source performs on finite doubles). -/
inductive FVal
  | nan
  | pinf
  | ninf
  | val (q : ℚ)
deriving DecidableEq

/-- Multiplication of an `f64` by a positive finite rational constant, as in
`alpha * 255.0` and `style.size() * 0.6` in the source. -/
def FVal.mulPos : FVal → ℚ → FVal
  | .nan, _ => .nan
  | .pinf, _ => .pinf
  | .ninf, _ => .ninf
  | .val q, c => .val (q * c)

/-- Truncation of a rational toward zero, the rounding used by Rust
float-to-integer casts. -/
def truncRat (q : ℚ) : ℤ :=
  if q < 0 then ⌈q⌉ else ⌊q⌋

/-- Rust `as u8` applied to an `f64`: saturating cast with truncation toward
zero; NaN maps to 0. -/
def rustCastU8 : FVal → ℕ
  | .nan => 0
  | .ninf => 0
  | .pinf => 255
  | .val q => if q < 0 then 0 else if 255 < q then 255 else (truncRat q).toNat

/-- Rust `as i32` applied to an `f64`: saturating cast with truncation toward
zero; NaN maps to 0. -/
def rustCastI32 : FVal → ℤ
  | .nan => 0
  | .pinf => 2 ^ 31 - 1
  | .ninf => -2 ^ 31
  | .val q => max (-2 ^ 31) (min (2 ^ 31 - 1) (truncRat q))

/-- Rust `as u32` applied to an `i32` value: two's-complement wrapping. -/
def i32ToU32 (z : ℤ) : ℕ :=
  (z % 2 ^ 32).toNat

/-- Rust `as i32` applied to a `u32` value: two's-complement wrapping. -/
def u32ToI32 (n : ℕ) : ℤ :=
  ((n : ℤ) + 2 ^ 31) % 2 ^ 32 - 2 ^ 31

/-- plotters `BackendColor`: an rgb byte triple plus a floating alpha. -/
structure BackendColor where
  alpha : FVal
  rgb : ℕ × ℕ × ℕ
deriving DecidableEq

/-- wx `Colour`: four 0-255 channels. -/
structure Colour where
  r : ℕ
  g : ℕ
  b : ℕ
  a : ℕ
deriving DecidableEq

/-- wx `Colour::rgb`: a fully opaque colour from three channels. -/
def Colour.rgb (r g b : ℕ) : Colour :=
  ⟨r, g, b, 255⟩

/-- `convert_color` (src/lib.rs): keep the rgb channels, compute the native
alpha channel by the Rust cast `(alpha * 255.0) as u8`. -/
def convert_color (color : BackendColor) : Colour :=
  ⟨color.rgb.1, color.rgb.2.1, color.rgb.2.2,
   rustCastU8 (color.alpha.mulPos 255)⟩

/-- plotters `FontFamily`. -/
inductive FontFamily
  | Monospace
  | SansSerif
  | Serif
  | Name (s : String)
deriving DecidableEq

/-- plotters `FontStyle`. -/
inductive FontStyle
  | Bold
  | Italic
  | Normal
  | Oblique
deriving DecidableEq

/-- wx `FontFamily`. -/
inductive WxFontFamily
  | Teletype
  | Swiss
  | Roman
  | Default
deriving DecidableEq

/-- wx `FontStyle`. -/
inductive WxFontStyle
  | Normal
  | Italic
  | Slant
deriving DecidableEq

/-- wx `FontWeight`. -/
inductive WxFontWeight
  | Normal
  | Bold
deriving DecidableEq

/-- plotters horizontal anchor position. -/
inductive HPos
  | Left
  | Center
  | Right
deriving DecidableEq

/-- plotters vertical anchor position. -/
inductive VPos
  | Top
  | Center
  | Bottom
deriving DecidableEq

/-- plotters text anchor position. -/
structure Pos where
  h_pos : HPos
  v_pos : VPos
deriving DecidableEq

/-- plotters `FontTransform`: clockwise text rotation. -/
inductive FontTransform
  | None
  | Rotate90
  | Rotate180
  | Rotate270
deriving DecidableEq

/-- wx `BackgroundMode`. -/
inductive BackgroundMode
  | Solid
  | Transparent
deriving DecidableEq

/-- wx `PenStyle` (only `Solid` is used by the adapter). -/
inductive PenStyle
  | Solid
deriving DecidableEq

/-- wx `BrushStyle`. -/
inductive BrushStyle
  | Solid
  | Transparent
deriving DecidableEq

/-- wx `PolygonFillMode`. -/
inductive PolygonFillMode
  | OddEven
  | Winding
deriving DecidableEq

/-- plotters `BackendTextStyle`: the fields the adapter reads. -/
structure TextStyle where
  color : BackendColor
  size : FVal
  family : FontFamily
  style : FontStyle
  anchor : Pos
  transform : FontTransform
deriving DecidableEq

/-- The wx `Font` parameters handed to `wx::Font::builder()...build()`. -/
structure Font where
  pointSize : ℤ
  family : WxFontFamily
  style : WxFontStyle
  weight : WxFontWeight
  underlined : Bool
  faceName : String
deriving DecidableEq

/-- plotters `BackendStyle`: a colour plus a `u32` stroke width. -/
structure BackendStyle where
  color : BackendColor
  stroke_width : ℕ
deriving DecidableEq

/-- `ErrorInner` (src/lib.rs): the two error kinds of the adapter. -/
inductive ErrorInner
  | CreateFont
  | CreateBitmap
deriving DecidableEq

/-- `Error` (src/lib.rs): transparent wrapper around `ErrorInner`. -/
structure Error where
  inner : ErrorInner
deriving DecidableEq

/-- plotters `DrawingErrorKind` instantiated at this backend's `Error`. -/
inductive DrawingErrorKind
  | DrawingError (e : Error)
  | FontError (e : Error)
deriving DecidableEq

/-- A native device-context call emitted by the adapter. -/
inductive NativeCall
  | setBackground (c : Colour)
  | setBackgroundMode (m : BackgroundMode)
  | clearCall
  | setPen (c : Colour) (width : ℤ) (style : PenStyle)
  | setBrush (c : Colour) (style : BrushStyle)
  | setTextBackground (c : Colour)
  | setTextForeground (c : Colour)
  | setFont (f : Font)
  | drawPoint (x y : ℤ)
  | drawLine (x1 y1 x2 y2 : ℤ)
  | drawLines (pts : List (ℤ × ℤ)) (xoff yoff : ℤ)
  | drawCircle (x y radius : ℤ)
  | drawRectangle (x y width height : ℤ)
  | drawPolygon (pts : List (ℤ × ℤ)) (xoff yoff : ℤ) (mode : PolygonFillMode)
  | drawText (t : String) (x y : ℤ)
  | drawRotatedText (t : String) (x y : ℤ) (angle : ℚ)
  | drawBitmap (x y : ℤ) (transparent : Bool)
deriving DecidableEq

/-- The mutable device-context state the adapter reads or writes. -/
structure DCState where
  background : Colour
  backgroundMode : BackgroundMode
  pen : Option (Colour × ℤ × PenStyle)
  brush : Option (Colour × BrushStyle)
  textForeground : Option Colour
  textBackground : Option Colour
  font : Option Font
deriving DecidableEq

/-- Behaviour of the native layer that the adapter only observes: surface
size, text measurement (a function of the currently set font), and whether
native font and bitmap construction succeed. -/
structure DCEnv where
  size : ℤ × ℤ
  textExtent : Option Font → String → ℤ × ℤ
  fontOk : Font → Bool
  bitmapOk : List ℕ → ℕ → ℕ → Bool

/-- Outcome of one adapter operation: its result, the device-context state
afterwards, and the native calls emitted, in order. -/
structure Step (ε α : Type) where
  result : Except ε α
  state : DCState
  calls : List NativeCall

/-- `WxBackend::clear`: forwards `clear` to the device context. -/
def clear (s : DCState) : DCState × List NativeCall :=
  (s, [.clearCall])

/-- `WxBackend::set_background_color`: forwards `set_background`. -/
def set_background_color (s : DCState) (color : Colour) :
    DCState × List NativeCall :=
  ({ s with background := color }, [.setBackground color])

/-- `WxBackend::set_background_mode`: forwards `set_background_mode`. -/
def set_background_mode (s : DCState) (mode : BackgroundMode) :
    DCState × List NativeCall :=
  ({ s with backgroundMode := mode }, [.setBackgroundMode mode])

/-- `WxBackend::new`: sets a white background colour, transparent background
mode, and clears the device context, in that order. -/
def WxBackend.new (s : DCState) : DCState × List NativeCall :=
  let step1 := set_background_color s (Colour.rgb 255 255 255)
  let step2 := set_background_mode step1.1 .Transparent
  let step3 := clear step2.1
  (step3.1, step1.2 ++ step2.2 ++ step3.2)

/-- `set_pen_style`: converts the colour, truncates the stroke width to
`i32`, and sets a solid pen. -/
def set_pen_style (s : DCState) (style : BackendStyle) :
    DCState × List NativeCall :=
  let color := convert_color style.color
  let width := u32ToI32 style.stroke_width
  ({ s with pen := some (color, width, .Solid) }, [.setPen color width .Solid])

/-- `set_brush_style`: solid brush when filling, transparent brush
otherwise. -/
def set_brush_style (s : DCState) (fill : Bool) (color : BackendColor) :
    DCState × List NativeCall :=
  let bstyle : BrushStyle := if fill then .Solid else .Transparent
  let c := convert_color color
  ({ s with brush := some (c, bstyle) }, [.setBrush c bstyle])

/-- The wx font parameters `set_font_style` derives from a plotters text
style: point size `(style.size() * 0.6) as i32`, family and face name from
the family table, slant and weight from the style table, underline always
disabled. -/
def fontOf (style : TextStyle) : Font :=
  let point_size := rustCastI32 (style.size.mulPos 0.6)
  let fp := match style.family with
    | .Monospace => (WxFontFamily.Teletype, "None")
    | .SansSerif => (WxFontFamily.Swiss, "None")
    | .Serif => (WxFontFamily.Roman, "None")
    | .Name name => (WxFontFamily.Default, name)
  let sw := match style.style with
    | .Bold => (WxFontStyle.Normal, WxFontWeight.Bold)
    | .Italic => (WxFontStyle.Italic, WxFontWeight.Normal)
    | .Normal => (WxFontStyle.Normal, WxFontWeight.Normal)
    | .Oblique => (WxFontStyle.Slant, WxFontWeight.Normal)
  { pointSize := point_size, family := fp.1, style := sw.1, weight := sw.2,
    underlined := false, faceName := fp.2 }

/-- `set_font_style`: sets the text background from the current background,
sets the text foreground, builds the wx font, and either errors with
`CreateFont` (when native font construction fails) or sets the font. -/
def set_font_style (env : DCEnv) (s : DCState) (style : TextStyle) :
    Step ErrorInner Unit :=
  let s1 := { s with textBackground := some s.background }
  let color := convert_color style.color
  let s2 := { s1 with textForeground := some color }
  let calls := [NativeCall.setTextBackground s.background,
                NativeCall.setTextForeground color]
  let font := fontOf style
  if env.fontOk font then
    { result := .ok (), state := { s2 with font := some font },
      calls := calls ++ [.setFont font] }
  else
    { result := .error .CreateFont, state := s2, calls := calls }

/-- `get_size`: native surface size, each `i32` cast to `u32`. -/
def get_size (env : DCEnv) : ℕ × ℕ :=
  (i32ToU32 env.size.1, i32ToU32 env.size.2)

/-- `ensure_prepared`: a no-op that returns `Ok(())`. -/
def ensure_prepared (s : DCState) : Step DrawingErrorKind Unit :=
  { result := .ok (), state := s, calls := [] }

/-- `present`: a no-op that returns `Ok(())`. -/
def present (s : DCState) : Step DrawingErrorKind Unit :=
  { result := .ok (), state := s, calls := [] }

/-- `draw_pixel`: sets a solid width-1 pen of the pixel colour and draws a
point. -/
def draw_pixel (s : DCState) (point : ℤ × ℤ) (color : BackendColor) :
    Step DrawingErrorKind Unit :=
  let c := convert_color color
  { result := .ok (),
    state := { s with pen := some (c, 1, .Solid) },
    calls := [.setPen c 1 .Solid, .drawPoint point.1 point.2] }

/-- `draw_line`: sets the pen style and draws a line. -/
def draw_line (s : DCState) (p1 p2 : ℤ × ℤ) (style : BackendStyle) :
    Step DrawingErrorKind Unit :=
  let sp := set_pen_style s style
  { result := .ok (), state := sp.1,
    calls := sp.2 ++ [.drawLine p1.1 p1.2 p2.1 p2.2] }

/-- `draw_path`: sets the pen style and draws the poly-line with zero
offsets. -/
def draw_path (s : DCState) (path : List (ℤ × ℤ)) (style : BackendStyle) :
    Step DrawingErrorKind Unit :=
  let sp := set_pen_style s style
  { result := .ok (), state := sp.1, calls := sp.2 ++ [.drawLines path 0 0] }

/-- `draw_circle`: sets pen and brush styles and draws a circle, radius cast
`u32` to `i32`. -/
def draw_circle (s : DCState) (center : ℤ × ℤ) (radius : ℕ)
    (style : BackendStyle) (fill : Bool) : Step DrawingErrorKind Unit :=
  let sp := set_pen_style s style
  let sb := set_brush_style sp.1 fill style.color
  { result := .ok (), state := sb.1,
    calls := sp.2 ++ sb.2 ++ [.drawCircle center.1 center.2 (u32ToI32 radius)] }

/-- `draw_rect`: sets pen and brush styles and draws the rectangle with
origin the first corner and extent the coordinate differences. -/
def draw_rect (s : DCState) (upper_left bottom_right : ℤ × ℤ)
    (style : BackendStyle) (fill : Bool) : Step DrawingErrorKind Unit :=
  let sp := set_pen_style s style
  let sb := set_brush_style sp.1 fill style.color
  { result := .ok (), state := sb.1,
    calls := sp.2 ++ sb.2 ++
      [.drawRectangle upper_left.1 upper_left.2
        (bottom_right.1 - upper_left.1) (bottom_right.2 - upper_left.2)] }

/-- `fill_polygon`: sets the pen style and a solid brush and draws the
polygon with zero offsets and odd-even fill mode. -/
def fill_polygon (s : DCState) (vert : List (ℤ × ℤ))
    (style : BackendStyle) : Step DrawingErrorKind Unit :=
  let sp := set_pen_style s style
  let sb := set_brush_style sp.1 true style.color
  { result := .ok (), state := sb.1,
    calls := sp.2 ++ sb.2 ++ [.drawPolygon vert 0 0 .OddEven] }

/-- `estimate_text_size`: applies the font style (wrapping a `CreateFont`
failure as a `FontError`), then measures the text with the current font,
each extent cast `i32` to `u32`. -/
def estimate_text_size (env : DCEnv) (s : DCState) (text : String)
    (style : TextStyle) : Step DrawingErrorKind (ℕ × ℕ) :=
  let st := set_font_style env s style
  match st.result with
  | .error e =>
    { result := .error (.FontError ⟨e⟩), state := st.state, calls := st.calls }
  | .ok _ =>
    let wh := env.textExtent st.state.font text
    { result := .ok (i32ToU32 wh.1, i32ToU32 wh.2), state := st.state,
      calls := st.calls }

/-- `draw_text`: measures the text (which also sets the font), computes the
anchor offset, rotates it by the text transform, and issues the plain or
rotated native text call with the negated angle. -/
def draw_text (env : DCEnv) (s : DCState) (text : String) (style : TextStyle)
    (pos : ℤ × ℤ) : Step DrawingErrorKind Unit :=
  let est := estimate_text_size env s text style
  match est.result with
  | .error e => { result := .error e, state := est.state, calls := est.calls }
  | .ok wh =>
    let width := u32ToI32 wh.1
    let height := u32ToI32 wh.2
    let x := pos.1
    let y := pos.2
    let dx := match style.anchor.h_pos with
      | .Left => 0
      | .Center => Int.tdiv (-width) 2
      | .Right => -width
    let dy := match style.anchor.v_pos with
      | .Top => 0
      | .Center => Int.tdiv (-height) 2
      | .Bottom => -height
    let dxy := match style.transform with
      | .None => (dx, dy)
      | .Rotate90 => (-dy, dx)
      | .Rotate180 => (-dx, -dy)
      | .Rotate270 => (dy, -dx)
    let angle : Option ℚ := match style.transform with
      | .None => none
      | .Rotate90 => some (-90)
      | .Rotate180 => some (-180)
      | .Rotate270 => some (-270)
    let call := match angle with
      | some a => NativeCall.drawRotatedText text (x + dxy.1) (y + dxy.2) a
      | none => NativeCall.drawText text (x + dxy.1) (y + dxy.2)
    { result := .ok (), state := est.state, calls := est.calls ++ [call] }

/-- `blit_bitmap`: constructs a native bitmap from the RGBA buffer, erroring
with `CreateBitmap` wrapped as a `FontError` when construction fails, and
draws it without transparency. -/
def blit_bitmap (env : DCEnv) (s : DCState) (pos : ℤ × ℤ) (iw ih : ℕ)
    (src : List ℕ) : Step DrawingErrorKind Unit :=
  if env.bitmapOk src iw ih then
    { result := .ok (), state := s, calls := [.drawBitmap pos.1 pos.2 false] }
  else
    { result := .error (.FontError ⟨.CreateBitmap⟩), state := s, calls := [] }

/-- Spec side (claim C1): unrotated offset from the anchor point to the
glyph drawing origin, `0 / -w/2 / -w` horizontally and `0 / -h/2 / -h`
vertically. -/
def specOffset (hp : HPos) (vp : VPos) (w h : ℤ) : ℤ × ℤ :=
  (match hp with
   | .Left => 0
   | .Center => -(w / 2)
   | .Right => -w,
   match vp with
   | .Top => 0
   | .Center => -(h / 2)
   | .Bottom => -h)

/-- Spec side (claim C1): rotation of the offset vector by the text
rotation. -/
def specRotate (t : FontTransform) (v : ℤ × ℤ) : ℤ × ℤ :=
  match t with
  | .None => v
  | .Rotate90 => (-v.2, v.1)
  | .Rotate180 => (-v.1, -v.2)
  | .Rotate270 => (v.2, -v.1)

/-- Spec side (claim C1): the native text call issued at the anchor point
plus the rotated offset — the plain call for rotation 0, the rotated call
with native angle -90, -180, -270 otherwise. -/
def specTextCall (text : String) (t : FontTransform) (x y : ℤ)
    (off : ℤ × ℤ) : NativeCall :=
  match t with
  | .None => .drawText text (x + off.1) (y + off.2)
  | .Rotate90 => .drawRotatedText text (x + off.1) (y + off.2) (-90)
  | .Rotate180 => .drawRotatedText text (x + off.1) (y + off.2) (-180)
  | .Rotate270 => .drawRotatedText text (x + off.1) (y + off.2) (-270)

/-- Spec side (claim C6): the family table of the claim. -/
def specFamily : FontFamily → WxFontFamily
  | .Monospace => .Teletype
  | .SansSerif => .Swiss
  | .Serif => .Roman
  | .Name _ => .Default

/-- Spec side (claim C6): the slant/weight table of the claim. -/
def specSlantWeight : FontStyle → WxFontStyle × WxFontWeight
  | .Bold => (.Normal, .Bold)
  | .Italic => (.Italic, .Normal)
  | .Normal => (.Normal, .Normal)
  | .Oblique => (.Slant, .Normal)

/-- Spec side (claim C10): the saturating truncation of `alpha * 255` to the
range 0-255 — negative and NaN inputs yield 0, inputs with `alpha * 255`
above 255 yield 255, others truncate toward zero. -/
def specAlphaChannel : FVal → ℕ
  | .nan => 0
  | .ninf => 0
  | .pinf => 255
  | .val q =>
    if q * 255 < 0 then 0
    else if 255 < q * 255 then 255
    else (truncRat (q * 255)).toNat

/-- Modelled from the spec: the inverse colour conversion, from a native
four-channel colour back to an abstract colour with `alpha = channel / 255`.
It exists only for the round-trip property of claim C2; the source under
`src/` has no such function. -/
def toBackendColor (c : Colour) : BackendColor :=
  ⟨.val ((c.a : ℚ) / 255), (c.r, c.g, c.b)⟩

/-- `true` exactly on native rectangle calls (claim C4). -/
def isRectCall : NativeCall → Bool
  | .drawRectangle _ _ _ _ => true
  | _ => false

/-- A sequence of `ensure_prepared` (`true`) and `present` (`false`) calls
run back to back, accumulating the emitted native calls (claim C8). -/
def runPreparePresent : List Bool → DCState → DCState × List NativeCall
  | [], s => (s, [])
  | b :: rest, s =>
    let st := if b then ensure_prepared s else present s
    let tail := runPreparePresent rest st.state
    (tail.1, st.calls ++ tail.2)

/-- A concrete device-context state used by the witnesses. -/
def s0 : DCState :=
  { background := Colour.rgb 0 0 0, backgroundMode := .Solid, pen := none,
    brush := none, textForeground := none, textBackground := none,
    font := none }

/-- A concrete native environment used by the witnesses: every font and
bitmap constructs, text measures 8 pixels per byte by 16 pixels. -/
def envW : DCEnv :=
  { size := (800, 600),
    textExtent := fun _ t => ((t.length : ℤ) * 8, 16),
    fontOk := fun _ => true,
    bitmapOk := fun src iw ih => src.length == 4 * iw * ih }

/-- A concrete native environment where no font and no bitmap constructs,
used by the error-path witnesses. -/
def envBad : DCEnv :=
  { size := (800, 600),
    textExtent := fun _ t => ((t.length : ℤ) * 8, 16),
    fontOk := fun _ => false,
    bitmapOk := fun _ _ _ => false }

/-- A concrete text style used by the witnesses. -/
def styleW (sz : FVal) (anchor : Pos) (t : FontTransform) : TextStyle :=
  { color := ⟨.val 1, (0, 0, 0)⟩, size := sz, family := .Monospace,
    style := .Normal, anchor := anchor, transform := t }

/-- A concrete text style with an explicit face name, for the C6 witness. -/
def styleNameW : TextStyle :=
  { color := ⟨.val 1, (0, 0, 0)⟩, size := .val 12, family := .Name "Arial",
    style := .Italic, anchor := ⟨.Left, .Top⟩, transform := .None }

/-- On success, `set_font_style` sets the text background from the current
background, the text foreground, and the font built from the style. -/
theorem set_font_style_ok (env : DCEnv) (s : DCState) (style : TextStyle)
    (h : env.fontOk (fontOf style) = true) :
    set_font_style env s style =
      { result := .ok (),
        state := { s with
                   textBackground := some s.background,
                   textForeground := some (convert_color style.color),
                   font := some (fontOf style) },
        calls := [.setTextBackground s.background,
                  .setTextForeground (convert_color style.color),
                  .setFont (fontOf style)] } := by
  simp [set_font_style, h]

/-- On font-construction failure, `set_font_style` errors with `CreateFont`
after setting the text background and foreground, and sets no font. -/
theorem set_font_style_err (env : DCEnv) (s : DCState) (style : TextStyle)
    (h : env.fontOk (fontOf style) = false) :
    set_font_style env s style =
      { result := .error .CreateFont,
        state := { s with
                   textBackground := some s.background,
                   textForeground := some (convert_color style.color) },
        calls := [.setTextBackground s.background,
                  .setTextForeground (convert_color style.color)] } := by
  simp [set_font_style, h]

/-- On success, `estimate_text_size` returns the measured extent of the text
under the font built from the style, each component cast to `u32`. -/
theorem estimate_text_size_ok (env : DCEnv) (s : DCState) (text : String)
    (style : TextStyle) (h : env.fontOk (fontOf style) = true) :
    estimate_text_size env s text style =
      { result := .ok
          (i32ToU32 (env.textExtent (some (fontOf style)) text).1,
           i32ToU32 (env.textExtent (some (fontOf style)) text).2),
        state := { s with
                   textBackground := some s.background,
                   textForeground := some (convert_color style.color),
                   font := some (fontOf style) },
        calls := [.setTextBackground s.background,
                  .setTextForeground (convert_color style.color),
                  .setFont (fontOf style)] } := by
  simp [estimate_text_size, set_font_style_ok env s style h]

/-- On font-construction failure, `estimate_text_size` propagates the
`CreateFont` error wrapped as a `FontError`. -/
theorem estimate_text_size_err (env : DCEnv) (s : DCState) (text : String)
    (style : TextStyle) (h : env.fontOk (fontOf style) = false) :
    estimate_text_size env s text style =
      { result := .error (.FontError ⟨.CreateFont⟩),
        state := { s with
                   textBackground := some s.background,
                   textForeground := some (convert_color style.color) },
        calls := [.setTextBackground s.background,
                  .setTextForeground (convert_color style.color)] } := by
  simp [estimate_text_size, set_font_style_err env s style h]

/-- Wrapping `u32 -> i32 -> u32` casts cancel below `2^31`. -/
theorem u32_i32_roundtrip (z : ℤ) (h0 : 0 ≤ z) (h1 : z < 2 ^ 31) :
    u32ToI32 (i32ToU32 z) = z := by
  unfold u32ToI32 i32ToU32
  omega

/-- Rust's truncating `-w / 2` agrees with `-(w / 2)` for nonnegative `w`. -/
theorem tdiv_neg_half (w : ℤ) (h : 0 ≤ w) : Int.tdiv (-w) 2 = -(w / 2) := by
  rw [Int.neg_tdiv, Int.tdiv_eq_ediv h (by norm_num)]

/-- C7: constructing a backend immediately sets the device context's
background colour to white (255, 255, 255), sets transparent background
mode, and clears the surface, so every rendering session starts from this
state regardless of the device context's prior state. -/
theorem new_initializes (s : DCState) :
    WxBackend.new s =
      ({ s with
         background := Colour.rgb 255 255 255,
         backgroundMode := .Transparent },
       [.setBackground (Colour.rgb 255 255 255),
        .setBackgroundMode .Transparent, .clearCall]) := by
  rfl

/-- C8: `ensure_prepared` and `present` always succeed, emit no native call,
and leave the device-context state unchanged; any back-to-back sequence of
the two calls, of any length, emits nothing and changes nothing. -/
theorem prepare_present_noop (s : DCState) (seq : List Bool) :
    (ensure_prepared s).result = .ok () ∧ (ensure_prepared s).state = s ∧
    (ensure_prepared s).calls = [] ∧
    (present s).result = .ok () ∧ (present s).state = s ∧
    (present s).calls = [] ∧
    runPreparePresent seq s = (s, []) := by
  refine ⟨rfl, rfl, rfl, rfl, rfl, rfl, ?_⟩
  induction seq with
  | nil => rfl
  | cons b rest ih =>
    cases b <;> simp [runPreparePresent, ensure_prepared, present, ih]

/-- C4: with ordered corners, `draw_rect` succeeds and issues exactly one
native rectangle call, at origin (x1, y1) with width x2 - x1 and height
y2 - y1. -/
theorem draw_rect_one_rectangle (s : DCState) (x1 y1 x2 y2 : ℤ)
    (style : BackendStyle) (fill : Bool) (hx : x1 ≤ x2) (hy : y1 ≤ y2) :
    (draw_rect s (x1, y1) (x2, y2) style fill).result = .ok () ∧
    ((draw_rect s (x1, y1) (x2, y2) style fill).calls.filter isRectCall) =
      [.drawRectangle x1 y1 (x2 - x1) (y2 - y1)] := by
  constructor
  · rfl
  · simp [draw_rect, set_pen_style, set_brush_style, isRectCall,
      List.filter]

/-- Witness for C4 at corners (1, 2) and (3, 7). -/
theorem draw_rect_one_rectangle_witness :
    (1 : ℤ) ≤ 3 ∧ (2 : ℤ) ≤ 7 ∧
    ((draw_rect s0 (1, 2) (3, 7) ⟨⟨.val 1, (0, 0, 0)⟩, 1⟩ false).result =
       .ok () ∧
     ((draw_rect s0 (1, 2) (3, 7) ⟨⟨.val 1, (0, 0, 0)⟩, 1⟩
         false).calls.filter isRectCall) =
       [.drawRectangle 1 2 (3 - 1) (7 - 2)]) :=
  ⟨by norm_num, by norm_num,
   draw_rect_one_rectangle s0 1 2 3 7 ⟨⟨.val 1, (0, 0, 0)⟩, 1⟩ false
     (by norm_num) (by norm_num)⟩

/-- C9: a `blit_bitmap` failure wraps the `CreateBitmap` error in the
plotting library's `FontError` drawing-error kind, not in a bitmap-specific
or generic drawing-error kind. -/
theorem blit_bitmap_error_kind (env : DCEnv) (s : DCState) (pos : ℤ × ℤ)
    (iw ih : ℕ) (src : List ℕ)
    (h : env.bitmapOk src iw ih = false) :
    (blit_bitmap env s pos iw ih src).result =
      .error (.FontError ⟨.CreateBitmap⟩) := by
  simp [blit_bitmap, h]

/-- Witness for C9 in an environment where bitmap construction fails. -/
theorem blit_bitmap_error_kind_witness :
    envBad.bitmapOk [] 1 1 = false ∧
    (blit_bitmap envBad s0 (0, 0) 1 1 []).result =
      .error (.FontError ⟨.CreateBitmap⟩) :=
  ⟨rfl, blit_bitmap_error_kind envBad s0 (0, 0) 1 1 [] rfl⟩

/-- C10: for every floating alpha, including NaN, infinities, and values
outside [0, 1], the colour conversion totally computes the saturating
truncation of `alpha * 255` into 0-255: negative and NaN inputs yield 0,
inputs with `alpha * 255` above 255 yield 255. -/
theorem convert_color_saturates (color : BackendColor) :
    convert_color color =
      ⟨color.rgb.1, color.rgb.2.1, color.rgb.2.2,
       specAlphaChannel color.alpha⟩ := by
  obtain ⟨alpha, rgb⟩ := color
  cases alpha <;>
    simp [convert_color, rustCastU8, specAlphaChannel, FVal.mulPos]

/-- C6: the font translation follows the claim's family table (Monospace to
teletype, SansSerif to swiss, Serif to roman, Name x to the default family
with face name x) and slant/weight table, and never underlines. -/
theorem fontOf_tables (style : TextStyle) :
    (fontOf style).family = specFamily style.family ∧
    (∀ x, style.family = .Name x → (fontOf style).faceName = x) ∧
    (fontOf style).style = (specSlantWeight style.style).1 ∧
    (fontOf style).weight = (specSlantWeight style.style).2 ∧
    (fontOf style).underlined = false := by
  obtain ⟨c, sz, fam, fs, a, t⟩ := style
  cases fam <;> cases fs <;>
    simp [fontOf, specFamily, specSlantWeight]

/-- Witness for C6 at an italic style with explicit face name "Arial". -/
theorem fontOf_tables_witness :
    (fontOf styleNameW).family = specFamily styleNameW.family ∧
    (fontOf styleNameW).faceName = "Arial" ∧
    (fontOf styleNameW).style = (specSlantWeight styleNameW.style).1 ∧
    (fontOf styleNameW).weight = (specSlantWeight styleNameW.style).2 ∧
    (fontOf styleNameW).underlined = false :=
  ⟨(fontOf_tables styleNameW).1,
   (fontOf_tables styleNameW).2.1 "Arial" rfl,
   (fontOf_tables styleNameW).2.2.1,
   (fontOf_tables styleNameW).2.2.2.1,
   (fontOf_tables styleNameW).2.2.2.2⟩

/-- C2 as stated fails: at alpha = 1/4 the code computes alpha channel 63 by
truncation, while round(alpha * 255) = round(63.75) = 64. -/
theorem convert_color_round_cex :
    (convert_color ⟨.val (1/4), (10, 20, 30)⟩).a = 63 ∧
    round ((1/4 : ℚ) * 255) = 64 ∧
    ((convert_color ⟨.val (1/4), (10, 20, 30)⟩).a : ℤ) ≠
      round ((1/4 : ℚ) * 255) := by
  have h1 : (convert_color ⟨.val (1/4), (10, 20, 30)⟩).a = 63 := by
    norm_num [convert_color, rustCastU8, FVal.mulPos, truncRat]
    rfl
  have h2 : round ((1/4 : ℚ) * 255) = 64 := by
    rw [round_eq]
    norm_num
  refine ⟨h1, h2, ?_⟩
  rw [h1, h2]
  norm_num

/-- C2 amended: the conversion keeps r, g, b unchanged and sets the alpha
channel to the saturating truncation (here, the floor) of alpha * 255;
converting to native and back preserves r, g, b exactly and alpha to within
1/255 (not to the nearest 1/255). -/
theorem convert_color_trunc_roundtrip (r g b : ℕ) (q : ℚ)
    (h0 : 0 ≤ q) (h1 : q ≤ 1) :
    convert_color ⟨.val q, (r, g, b)⟩ =
      { r := r, g := g, b := b, a := (⌊q * 255⌋).toNat } ∧
    (toBackendColor (convert_color ⟨.val q, (r, g, b)⟩)).rgb = (r, g, b) ∧
    ∃ a : ℚ,
      (toBackendColor (convert_color ⟨.val q, (r, g, b)⟩)).alpha = .val a ∧
      |q - a| < 1 / 255 := by
  have hnn : ¬ (q * 255 < 0) := not_lt.mpr (by positivity)
  have hub : ¬ ((255 : ℚ) < q * 255) := not_lt.mpr (by nlinarith)
  have hconv : convert_color ⟨.val q, (r, g, b)⟩ =
      { r := r, g := g, b := b, a := (⌊q * 255⌋).toNat } := by
    simp [convert_color, rustCastU8, FVal.mulPos, truncRat, hnn, hub]
  have hflnn : (0 : ℤ) ≤ ⌊q * 255⌋ := Int.floor_nonneg.mpr (by positivity)
  have hcast : (((⌊q * 255⌋).toNat : ℚ)) = ((⌊q * 255⌋ : ℤ) : ℚ) := by
    exact_mod_cast congrArg (fun z : ℤ => (z : ℚ)) (Int.toNat_of_nonneg hflnn)
  refine ⟨hconv, by rw [hconv]; rfl, ((⌊q * 255⌋).toNat : ℚ) / 255, ?_, ?_⟩
  · rw [hconv]
    rfl
  · have lo := Int.floor_le (q * 255)
    have hi := Int.lt_floor_add_one (q * 255)
    rw [hcast]
    rw [abs_lt]
    constructor <;> [linarith; linarith]

/-- Witness for the amended C2 at alpha = 1/2 and rgb (1, 2, 3). -/
theorem convert_color_trunc_roundtrip_witness :
    (0 : ℚ) ≤ 1/2 ∧ (1/2 : ℚ) ≤ 1 ∧
    (convert_color ⟨.val (1/2), (1, 2, 3)⟩ =
       { r := 1, g := 2, b := 3, a := (⌊(1/2 : ℚ) * 255⌋).toNat } ∧
     (toBackendColor (convert_color ⟨.val (1/2), (1, 2, 3)⟩)).rgb =
       (1, 2, 3) ∧
     ∃ a : ℚ,
       (toBackendColor (convert_color ⟨.val (1/2), (1, 2, 3)⟩)).alpha =
         .val a ∧
       |(1/2 : ℚ) - a| < 1 / 255) :=
  ⟨by norm_num, by norm_num,
   convert_color_trunc_roundtrip 1 2 3 (1/2) (by norm_num) (by norm_num)⟩

/-- C3 as stated fails: for a style of size 3 the code computes native point
size 1 by truncating 3 * 0.6 = 1.8, while round(3 * 0.6) = 2. -/
theorem fontOf_pointSize_cex :
    (fontOf (styleW (.val 3) ⟨.Left, .Top⟩ .None)).pointSize = 1 ∧
    round ((3 : ℚ) * 0.6) = 2 ∧
    (fontOf (styleW (.val 3) ⟨.Left, .Top⟩ .None)).pointSize ≠
      round ((3 : ℚ) * 0.6) := by
  have h1 : (fontOf (styleW (.val 3) ⟨.Left, .Top⟩ .None)).pointSize = 1 := by
    norm_num [fontOf, styleW, rustCastI32, FVal.mulPos, truncRat]
  have h2 : round ((3 : ℚ) * 0.6) = 2 := by
    rw [round_eq]
    norm_num
  refine ⟨h1, h2, ?_⟩
  rw [h1, h2]
  norm_num

/-- C3 amended: for a finite nonnegative size within the `i32` range, the
native point size is the truncation (floor) of size * 0.6, not its
rounding. -/
theorem fontOf_pointSize_trunc (style : TextStyle) (q : ℚ)
    (hsz : style.size = .val q) (h0 : 0 ≤ q) (hub : q * 0.6 < 2 ^ 31) :
    (fontOf style).pointSize = ⌊q * 0.6⌋ := by
  have hnn : ¬ (q * 0.6 < 0) := not_lt.mpr (by positivity)
  have hflnn : (0 : ℤ) ≤ ⌊q * 0.6⌋ := Int.floor_nonneg.mpr (by positivity)
  have hlt : ⌊q * 0.6⌋ < (2 ^ 31 : ℤ) := by
    rw [Int.floor_lt]
    exact_mod_cast hub
  simp only [fontOf, hsz, FVal.mulPos, rustCastI32, truncRat, if_neg hnn]
  rw [min_eq_right (by omega), max_eq_right (by omega)]

/-- Witness for the amended C3 at size 5: point size 3 = floor(5 * 0.6). -/
theorem fontOf_pointSize_trunc_witness :
    (styleW (.val 5) ⟨.Left, .Top⟩ .None).size = .val 5 ∧
    (0 : ℚ) ≤ 5 ∧ (5 : ℚ) * 0.6 < 2 ^ 31 ∧
    (fontOf (styleW (.val 5) ⟨.Left, .Top⟩ .None)).pointSize =
      ⌊(5 : ℚ) * 0.6⌋ :=
  ⟨rfl, by norm_num, by norm_num,
   fontOf_pointSize_trunc (styleW (.val 5) ⟨.Left, .Top⟩ .None) 5 rfl
     (by norm_num) (by norm_num)⟩

/-- C1: when the font constructs and the measured extent (w, h) is an
in-range nonnegative `i32` pair, `draw_text` succeeds and, after the
font-setting calls, issues exactly the native text call of the claim: the
anchor offset (0 / -w/2 / -w, 0 / -h/2 / -h) rotated by the text rotation,
added to the anchor point, drawn by the plain call for rotation 0 and by
the rotated call with native angle -90, -180, -270 otherwise. -/
theorem draw_text_places_text (env : DCEnv) (s : DCState) (text : String)
    (style : TextStyle) (x y w h : ℤ)
    (hfont : env.fontOk (fontOf style) = true)
    (hext : env.textExtent (some (fontOf style)) text = (w, h))
    (hw0 : 0 ≤ w) (hw1 : w < 2 ^ 31) (hh0 : 0 ≤ h) (hh1 : h < 2 ^ 31) :
    (draw_text env s text style (x, y)).result = .ok () ∧
    (draw_text env s text style (x, y)).calls =
      (set_font_style env s style).calls ++
        [specTextCall text style.transform x y
          (specRotate style.transform
            (specOffset style.anchor.h_pos style.anchor.v_pos w h))] := by
  have hw' : u32ToI32 (i32ToU32 w) = w := u32_i32_roundtrip w hw0 hw1
  have hh' : u32ToI32 (i32ToU32 h) = h := u32_i32_roundtrip h hh0 hh1
  have hest := estimate_text_size_ok env s text style hfont
  have hsfs := set_font_style_ok env s style hfont
  obtain ⟨c, sz, fam, fs, ⟨hp, vp⟩, tr⟩ := style
  rw [hext] at hest
  constructor
  · simp [draw_text, hest]
  · rw [draw_text, hest, hsfs]
    cases tr <;> cases hp <;> cases vp <;>
      simp [specTextCall, specRotate, specOffset, hw', hh',
        tdiv_neg_half w hw0, tdiv_neg_half h hh0]

/-- Witness for C1: centered bottom-anchored text rotated 90 degrees at
(100, 50) in an environment where "hi" measures 16 by 16. -/
theorem draw_text_places_text_witness :
    envW.fontOk (fontOf (styleW (.val 12) ⟨.Center, .Bottom⟩ .Rotate90)) =
      true ∧
    envW.textExtent
      (some (fontOf (styleW (.val 12) ⟨.Center, .Bottom⟩ .Rotate90))) "hi" =
      (16, 16) ∧
    ((draw_text envW s0 "hi" (styleW (.val 12) ⟨.Center, .Bottom⟩ .Rotate90)
        (100, 50)).result = .ok () ∧
     (draw_text envW s0 "hi" (styleW (.val 12) ⟨.Center, .Bottom⟩ .Rotate90)
        (100, 50)).calls =
       (set_font_style envW s0
         (styleW (.val 12) ⟨.Center, .Bottom⟩ .Rotate90)).calls ++
         [specTextCall "hi"
           (styleW (.val 12) ⟨.Center, .Bottom⟩ .Rotate90).transform 100 50
           (specRotate
             (styleW (.val 12) ⟨.Center, .Bottom⟩ .Rotate90).transform
             (specOffset
               (styleW (.val 12) ⟨.Center, .Bottom⟩ .Rotate90).anchor.h_pos
               (styleW (.val 12) ⟨.Center, .Bottom⟩ .Rotate90).anchor.v_pos
               16 16))]) :=
  ⟨rfl, by decide,
   draw_text_places_text envW s0 "hi"
     (styleW (.val 12) ⟨.Center, .Bottom⟩ .Rotate90) 100 50 16 16 rfl
     (by decide) (by decide) (by decide) (by decide) (by decide)⟩

/-- C5: the font-using calls fail exactly when native font construction
fails, propagating `CreateFont` as a typed font-error result; `blit_bitmap`
fails exactly when native bitmap construction fails, propagating
`CreateBitmap`; every other drawing operation always returns success. -/
theorem error_paths (env : DCEnv) (s : DCState) :
    (∀ text style, (estimate_text_size env s text style).result =
      if env.fontOk (fontOf style) then
        .ok (i32ToU32 (env.textExtent (some (fontOf style)) text).1,
             i32ToU32 (env.textExtent (some (fontOf style)) text).2)
      else .error (.FontError ⟨.CreateFont⟩)) ∧
    (∀ text style pos, (draw_text env s text style pos).result =
      if env.fontOk (fontOf style) then .ok ()
      else .error (.FontError ⟨.CreateFont⟩)) ∧
    (∀ pos iw ih src, (blit_bitmap env s pos iw ih src).result =
      if env.bitmapOk src iw ih then .ok ()
      else .error (.FontError ⟨.CreateBitmap⟩)) ∧
    (ensure_prepared s).result = .ok () ∧
    (present s).result = .ok () ∧
    (∀ point color, (draw_pixel s point color).result = .ok ()) ∧
    (∀ p1 p2 style, (draw_line s p1 p2 style).result = .ok ()) ∧
    (∀ path style, (draw_path s path style).result = .ok ()) ∧
    (∀ center radius style fill,
      (draw_circle s center radius style fill).result = .ok ()) ∧
    (∀ c1 c2 style fill,
      (draw_rect s c1 c2 style fill).result = .ok ()) ∧
    (∀ vert style, (fill_polygon s vert style).result = .ok ()) := by
  refine ⟨?_, ?_, ?_, rfl, rfl, fun _ _ => rfl, fun _ _ _ => rfl,
    fun _ _ => rfl, fun _ _ _ _ => rfl, fun _ _ _ _ => rfl,
    fun _ _ => rfl⟩
  · intro text style
    by_cases hf : env.fontOk (fontOf style) = true
    · rw [estimate_text_size_ok env s text style hf, if_pos hf]
    · rw [estimate_text_size_err env s text style (by simpa using hf),
        if_neg hf]
  · intro text style pos
    by_cases hf : env.fontOk (fontOf style) = true
    · rw [if_pos hf]
      simp [draw_text, estimate_text_size_ok env s text style hf]
    · rw [if_neg hf]
      simp [draw_text,
        estimate_text_size_err env s text style (by simpa using hf)]
  · intro pos iw ih src
    by_cases hb : env.bitmapOk src iw ih = true
    · rw [if_pos hb]
      simp [blit_bitmap, hb]
    · rw [if_neg hb]
      simp [blit_bitmap, (by simpa using hb : env.bitmapOk src iw ih = false)]

end PlottersWx
